import Mathlib

/-!
Verification model of the fn pure runner (src/api/agent/pure_runner.go) and
the load-balancer pool sentinel (src/api/agent/lb_pool.go).

The outbound gRPC stream is modelled as the ordered list of frames whose send
succeeded together with a counter of send attempts; a send-outcome oracle
`Nat → Bool` decides whether the n-th send attempt succeeds.  Go `error`
values are modelled as `Option GoErr` (`none` = nil).  Byte slices are
`List Nat`.

The engagement handler `Engage` runs a receive loop and, on the first data
chunk, launches an executor goroutine (`handleData`'s `go func`); the two
activities share the call state.  This is modelled as a small-step system:
`loopStep` is one iteration of the receive loop, `execStep` is one coarse
atomic step of the executor goroutine, and a schedule (`List Bool`) picks
which activity steps next.  Nil-pointer dereferences (Go panics) are modelled
by the `crashed` flag.
-/

namespace Fn

/-- Bytes of a Go byte slice, one `Nat` per byte. -/
abbrev Bytes := List Nat

/-- Text of a non-nil Go `error`; a nilable `error` is `Option GoErr`. -/
abbrev GoErr := String

/-- One `runner.HttpHeader` key/value pair. -/
structure HttpHeader where
  key : String
  value : String
deriving DecidableEq, Repr

/-- Server→client frame bodies of `runner.RunnerMsg`: `CallAcknowledged`,
`CallResultStart` (HTTP meta), `DataFrame`, `CallFinished`.  The
`SlotAllocationLatency` string of `CallAcknowledged` is timing-only and is
omitted from the model. -/
inductive RunnerMsg where
  | acknowledged (committed : Bool) (details : String)
  | resultStart (statusCode : Int) (headers : List HttpHeader)
  | dataFrame (payload : Bytes) (eof : Bool)
  | finished (success : Bool) (details : String)
deriving DecidableEq, Repr

/-- Recognizer for `resultStart` frames. -/
def isRS : RunnerMsg → Bool
  | .resultStart _ _ => true
  | _ => false

/-- Recognizer for `dataFrame` frames. -/
def isDF : RunnerMsg → Bool
  | .dataFrame _ _ => true
  | _ => false

/-- Recognizer for end-of-stream data frames. -/
def isEofDF : RunnerMsg → Bool
  | .dataFrame _ true => true
  | _ => false

/-- Projection to data-frame content, `none` on other frames. -/
def getDF : RunnerMsg → Option (Bytes × Bool)
  | .dataFrame p e => some (p, e)
  | _ => none

/-- The outbound half of one engagement stream: frames whose send succeeded,
in order, plus the total number of send attempts made. -/
structure OutStream where
  sent : List RunnerMsg
  attempts : Nat
deriving DecidableEq, Repr

/-- A fresh outbound stream. -/
def emptyStream : OutStream := { sent := [], attempts := 0 }

/-- Model of `engagement.Send`: the oracle `ok` decides whether this attempt
succeeds; on success the frame is appended to the stream, on failure nothing
is delivered and a transport error is returned. -/
def sendMsg (ok : Nat → Bool) (s : OutStream) (m : RunnerMsg) : OutStream × Option GoErr :=
  if ok s.attempts then
    ({ sent := s.sent ++ [m], attempts := s.attempts + 1 }, none)
  else
    ({ sent := s.sent, attempts := s.attempts + 1 },
      some ("transport send failure " ++ toString s.attempts))

/-- Send oracle under which every send succeeds (a healthy stream). -/
def allOk : Nat → Bool := fun _ => true

/-- State of `writerFacade`: accumulated headers (the Go `http.Header` map is
modelled as the list of key/value pairs in insertion order), pending status
(initially 200), and the `headerWritten` commit flag. -/
structure WriterFacade where
  outHeaders : List HttpHeader
  outStatus : Int
  headerWritten : Bool
deriving DecidableEq, Repr

/-- The facade as initialized by `Engage`. -/
def initFacade : WriterFacade := { outHeaders := [], outStatus := 200, headerWritten := false }

/-- Model of `writerFacade.commitHeaders`: a no-op once `headerWritten` is
set; otherwise sets the flag, then sends one `CallResultStart` frame built
from the accumulated status and headers.  A send error is logged and
swallowed (the flag stays set). -/
def commitHeaders (ok : Nat → Bool) (w : WriterFacade) (s : OutStream) :
    WriterFacade × OutStream :=
  if w.headerWritten then (w, s)
  else
    let w' := { w with headerWritten := true }
    let r := sendMsg ok s (.resultStart w.outStatus w.outHeaders)
    (w', r.1)

/-- Model of `writerFacade.Write`: commit headers first, then send one data
frame carrying exactly the given bytes with `Eof = false`; returns the byte
count on success, or 0 and a wrapped error on send failure. -/
def wWrite (ok : Nat → Bool) (w : WriterFacade) (s : OutStream) (d : Bytes) :
    WriterFacade × OutStream × Nat × Option GoErr :=
  let p := commitHeaders ok w s
  let r := sendMsg ok p.2 (.dataFrame d false)
  match r.2 with
  | some er => (p.1, r.1, 0, some ("Error sending data: " ++ er))
  | none => (p.1, r.1, d.length, none)

/-- Model of `writerFacade.Close`: commit headers first, then send one data
frame with empty payload and `Eof = true`; wraps a send failure. -/
def wClose (ok : Nat → Bool) (w : WriterFacade) (s : OutStream) :
    WriterFacade × OutStream × Option GoErr :=
  let p := commitHeaders ok w s
  let r := sendMsg ok p.2 (.dataFrame [] true)
  match r.2 with
  | some er => (p.1, r.1, some ("Error sending close frame: " ++ er))
  | none => (p.1, r.1, none)

/-- Operations a client of the facade (the execution engine writing the
HTTP response, or the executor) can perform: `Header().Add`, `WriteHeader`,
`Write`, `Close`. -/
inductive WOp where
  | setHeader (k v : String)
  | writeHeader (status : Int)
  | write (d : Bytes)
  | close
deriving DecidableEq, Repr

/-- Apply one facade operation to a facade/stream pair. -/
def applyWOp (ok : Nat → Bool) (p : WriterFacade × OutStream) : WOp → WriterFacade × OutStream
  | .setHeader k v => ({ p.1 with outHeaders := p.1.outHeaders ++ [⟨k, v⟩] }, p.2)
  | .writeHeader st => commitHeaders ok { p.1 with outStatus := st } p.2
  | .write d =>
      let r := wWrite ok p.1 p.2 d
      (r.1, r.2.1)
  | .close =>
      let r := wClose ok p.1 p.2
      (r.1, r.2.1)

/-- Apply a sequence of facade operations. -/
def runOps (ok : Nat → Bool) (p : WriterFacade × OutStream) : List WOp → WriterFacade × OutStream
  | [] => p
  | op :: rest => runOps ok (applyWOp ok p op) rest

/-- A sequence of body writes followed by one close, on a fresh facade and a
healthy stream (the session calls `Close` exactly once, at completion). -/
def writesThenClose (ds : List Bytes) : WriterFacade × OutStream :=
  runOps allOk (initFacade, emptyStream) (ds.map WOp.write ++ [WOp.close])

/-- Frames that are not `resultStart`. -/
def rsFree (l : List RunnerMsg) : Bool := l.all (fun m => !(isRS m))

/-- Frames that are not data frames. -/
def dfFree (l : List RunnerMsg) : Bool := l.all (fun m => !(isDF m))

/-- Number of `resultStart` frames in a frame list. -/
def rsCount (l : List RunnerMsg) : Nat := l.countP (fun m => isRS m)

/-- Every `resultStart` frame precedes every data frame: once a data frame
appears, no `resultStart` follows. -/
def okShape : List RunnerMsg → Bool
  | [] => true
  | m :: rest => if isDF m then rsFree rest else okShape rest

/-- Invariant tying the facade's commit flag to the stream: before commit no
result-start and no data frame has been sent; at most one result-start frame
is ever sent and it precedes every data frame. -/
def FacadeInv (w : WriterFacade) (s : OutStream) : Prop :=
  (w.headerWritten = false → rsCount s.sent = 0 ∧ dfFree s.sent = true) ∧
  rsCount s.sent ≤ 1 ∧ okShape s.sent = true

/-- The agent's `call` object, as far as the session touches it: the model
identifier and whether `reservedSlot` is non-nil.  Modelled from the spec:
the agent (`GetCall`/`Submit`) is not part of src; per the spec the
successful construction of a call reserves a capacity slot, so a call
returned by a successful `GetCall` holds a non-nil `reservedSlot`. -/
structure AgentCall where
  id : String
  reservedSlot : Bool
deriving DecidableEq, Repr

/-- Outcome of processing one `TryCall`: `json.Unmarshal` plus
`Agent.GetCall` either produce a call (with its model ID) or fail with an
error.  Modelled from the spec: both steps live in the external agent /
standard library; their outcome is carried on the incoming message. -/
inductive TryOutcome where
  | accept (callId : String)
  | reject (e : GoErr)
deriving DecidableEq, Repr

/-- Client→server message bodies: `ClientMsg_Try`, `ClientMsg_Data`, or any
unrecognized body (the `default` case of the receive loop's switch). -/
inductive ClientMsg where
  | submit (tc : TryOutcome)
  | dataMsg (payload : Bytes) (eof : Bool)
  | unrecognized
deriving DecidableEq, Repr

/-- Result of one `engagement.Recv`: a message or a receive error. -/
inductive RecvRes where
  | msg (m : ClientMsg)
  | fail (e : GoErr)
deriving DecidableEq, Repr

/-- Write end of the input `io.Pipe` handed to the call. -/
structure Pipe where
  closed : Bool
deriving DecidableEq, Repr

/-- Program counter of the executor goroutine launched by `handleData`:
not yet launched, about to run `Agent.Submit`, just returned from `Submit`
with its result, just returned from `writerFacade.Close` with its result
(success path only), or finished. -/
inductive ExecPhase where
  | idle
  | running
  | postSubmit (res : Option GoErr)
  | postClose (res : Option GoErr)
  | finishedExec
deriving DecidableEq, Repr

/-- Per-session external environment: the send-outcome oracle, the result of
`Agent.Submit` for this call, and the facade operations the execution engine
performs on the response writer while `Submit` runs. -/
structure Env where
  sendOk : Nat → Bool
  submitRes : Option GoErr
  engineWrites : List WOp

/-- One engagement's combined configuration: the shared `callState` (facade,
call, input pipe, `started` flag, `streamError`), the outbound stream, the
executor's phase, the remaining receive results, the receive loop's return
value once it has returned (`some none` would be a nil return), and whether
a nil-pointer dereference (Go panic) has occurred. -/
structure Config where
  w : WriterFacade
  stream : OutStream
  c : Option AgentCall
  input : Option Pipe
  started : Bool
  streamError : Option GoErr
  phase : ExecPhase
  recvs : List RecvRes
  ret : Option (Option GoErr)
  crashed : Bool
deriving DecidableEq, Repr

/-- Initial configuration of `Engage` for a given incoming stream. -/
def initConfig (recvs : List RecvRes) : Config :=
  { w := initFacade, stream := emptyStream, c := none, input := none,
    started := false, streamError := none, phase := .idle, recvs := recvs,
    ret := none, crashed := false }

/-- Model of `handleTryCall`: on a reject outcome returns the error with the
state unchanged; on accept stores the call (slot reserved) and a fresh open
input pipe.  Timestamps (`receivedTime`/`allocatedTime`) are timing-only and
omitted. -/
def handleTryCall (tc : TryOutcome) (cfg : Config) : Config × Option GoErr :=
  match tc with
  | .reject e => (cfg, some e)
  | .accept cid => ({ cfg with c := some ⟨cid, true⟩, input := some ⟨false⟩ }, none)

/-- First-chunk side effect of `handleData`: set `started` and launch the
executor goroutine. -/
def startExec (cfg : Config) : Config :=
  if cfg.started then cfg else { cfg with started := true, phase := .running }

/-- Model of the receive-loop side of `handleData`: on the first chunk set
`started` and launch the executor goroutine; then, if the payload is
non-empty, write it to the input pipe (a nil pipe dereference crashes, a
closed pipe yields the pipe error which is returned); finally, on `Eof`,
close the input pipe (crashing if it is nil).  A write error returns before
the `Eof` close, as in the source. -/
def handleData (payload : Bytes) (eof : Bool) (cfg0 : Config) : Config × Option GoErr :=
  let cfg := startExec cfg0
  match payload, cfg.input with
  | _ :: _, none => ({ cfg with crashed := true }, none)
  | _ :: _, some p =>
      if p.closed then (cfg, some "io: read/write on closed pipe")
      else if eof then ({ cfg with input := some ⟨true⟩ }, none)
      else (cfg, none)
  | [], _ =>
      if eof then
        match cfg.input with
        | none => ({ cfg with crashed := true }, none)
        | some _ => ({ cfg with input := some ⟨true⟩ }, none)
      else (cfg, none)

/-- One iteration of the receive loop of `Engage`: receive, then dispatch on
the message body exactly as the source's switch does.  Once the loop has
returned (or the process crashed) further steps are no-ops. -/
def loopStep (env : Env) (cfg : Config) : Config :=
  if cfg.crashed || cfg.ret.isSome then cfg
  else
    match cfg.recvs with
    | [] => cfg
    | r :: rest =>
      let cfg1 := { cfg with recvs := rest }
      match r with
      | .fail e =>
          match cfg.c with
          | some call =>
              if call.reservedSlot then
                match cfg.input with
                | none => { cfg1 with streamError := some e, crashed := true }
                | some _ =>
                    { cfg1 with streamError := some e, input := some ⟨true⟩, ret := some (some e) }
              else { cfg1 with streamError := some e, ret := some (some e) }
          | none => { cfg1 with streamError := some e, ret := some (some e) }
      | .msg (.submit tc) =>
          match handleTryCall tc cfg1 with
          | (cfg2, some e) =>
              if cfg2.streamError = none then
                match sendMsg env.sendOk cfg2.stream (.acknowledged false e) with
                | (s2, some e2) =>
                    { cfg2 with stream := s2, streamError := some e2, ret := some (some e) }
                | (s2, none) => { cfg2 with stream := s2, ret := some (some e) }
              else { cfg2 with ret := some (some e) }
          | (cfg2, none) =>
              if cfg2.streamError = none then
                match sendMsg env.sendOk cfg2.stream
                    (.acknowledged true ((cfg2.c.map AgentCall.id).getD "")) with
                | (s2, some e2) =>
                    { cfg2 with stream := s2, streamError := some e2, ret := some (some e2) }
                | (s2, none) => { cfg2 with stream := s2 }
              else cfg2
      | .msg (.dataMsg p eof) =>
          match handleData p eof cfg1 with
          | (cfg2, some e) => { cfg2 with ret := some (some e) }
          | (cfg2, none) => cfg2
      | .msg .unrecognized =>
          { cfg1 with ret := some (some "Unrecognized or unhandled message in receive loop") }

/-- One coarse atomic step of the executor goroutine: run the engine
(its facade writes, then `Submit`'s result); on a `Submit` error send
`Finished{success:false}` with the error text if no stream fault is
recorded; on success call `writerFacade.Close` (which sends
unconditionally), then send the appropriate `Finished` frame, the close
error taking precedence, each send guarded by the fault check.  Running the
engine on a nil call crashes (modelled from the spec: the engine
dereferences its call descriptor). -/
def execStep (env : Env) (cfg : Config) : Config :=
  if cfg.crashed then cfg
  else
    match cfg.phase with
    | .idle => cfg
    | .running =>
        match cfg.c with
        | none => { cfg with crashed := true }
        | some _ =>
            let p := runOps env.sendOk (cfg.w, cfg.stream) env.engineWrites
            { cfg with w := p.1, stream := p.2, phase := .postSubmit env.submitRes }
    | .postSubmit (some e) =>
        if cfg.streamError = none then
          match sendMsg env.sendOk cfg.stream (.finished false e) with
          | (s2, some e2) =>
              { cfg with stream := s2, streamError := some e2, phase := .finishedExec }
          | (s2, none) => { cfg with stream := s2, phase := .finishedExec }
        else { cfg with phase := .finishedExec }
    | .postSubmit none =>
        match wClose env.sendOk cfg.w cfg.stream with
        | (w2, s2, ce) => { cfg with w := w2, stream := s2, phase := .postClose ce }
    | .postClose (some ce) =>
        if cfg.streamError = none then
          match sendMsg env.sendOk cfg.stream (.finished false ce) with
          | (s2, some e2) =>
              { cfg with stream := s2, streamError := some e2, phase := .finishedExec }
          | (s2, none) => { cfg with stream := s2, phase := .finishedExec }
        else { cfg with phase := .finishedExec }
    | .postClose none =>
        if cfg.streamError = none then
          match sendMsg env.sendOk cfg.stream
              (.finished true ((cfg.c.map AgentCall.id).getD "")) with
          | (s2, some e2) =>
              { cfg with stream := s2, streamError := some e2, phase := .finishedExec }
          | (s2, none) => { cfg with stream := s2, phase := .finishedExec }
        else { cfg with phase := .finishedExec }
    | .finishedExec => cfg

/-- One scheduler step: `true` runs the receive loop, `false` the executor. -/
def step (env : Env) (cfg : Config) (choice : Bool) : Config :=
  if choice then loopStep env cfg else execStep env cfg

/-- Run a schedule of interleaved steps. -/
def runSched (env : Env) (cfg : Config) : List Bool → Config
  | [] => cfg
  | ch :: rest => runSched env (step env cfg ch) rest

/-- Healthy environment: all sends succeed, `Submit` succeeds, the engine
writes no output itself. -/
def envPlain : Env := { sendOk := allOk, submitRes := none, engineWrites := [] }

/-- Environment for the partial-output failure scenario: the engine writes
headers (status 200) and two body bytes, then `Submit` fails. -/
def envPartial : Env :=
  { sendOk := allOk, submitRes := some "exec boom",
    engineWrites := [WOp.writeHeader 200, WOp.write [10, 11]] }

/-- Environment where the engine writes two body bytes and `Submit`
succeeds. -/
def envEngine : Env := { sendOk := allOk, submitRes := none, engineWrites := [WOp.write [104, 105]] }

/-- Concrete configuration for the allocation-failure witness: the first
receive yields a `TryCall` whose processing fails. -/
def cfgW8 : Config := initConfig [RecvRes.msg (ClientMsg.submit (TryOutcome.reject "bad json"))]

/-- Concrete configuration for the receive-fault witness: a call is
allocated (slot held, pipe open) and the next receive fails. -/
def cfgW5 : Config :=
  { initConfig [RecvRes.fail "eof"] with
      c := some { id := "w5", reservedSlot := true }, input := some { closed := false } }

/-- Concrete configuration with the executor just back from a failed
`Submit`. -/
def cfgW3a : Config := { initConfig [] with phase := ExecPhase.postSubmit (some "boom") }

/-- Concrete configuration with the executor just back from a failed
`writerFacade.Close` on the success path. -/
def cfgW3b : Config := { initConfig [] with phase := ExecPhase.postClose (some "close fail") }

/-- Incoming trace: an accepted submit, an end-of-stream data chunk that
starts the executor, then a receive failure. -/
def recvFaultTrace : List RecvRes :=
  [RecvRes.msg (ClientMsg.submit (TryOutcome.accept "call-1")),
   RecvRes.msg (ClientMsg.dataMsg [104] true),
   RecvRes.fail "rpc error: connection reset"]

/-- Incoming trace: two accepted submits on one session. -/
def doubleSubmitTrace : List RecvRes :=
  [RecvRes.msg (ClientMsg.submit (TryOutcome.accept "id-a")),
   RecvRes.msg (ClientMsg.submit (TryOutcome.accept "id-b"))]

/-- Incoming trace: a data chunk arriving before any submit. -/
def earlyDataTrace : List RecvRes := [RecvRes.msg (ClientMsg.dataMsg [120] false)]

/-- Incoming trace: an accepted submit, an end-of-stream data chunk, then a
receive failure; paired with `envEngine` so the engine produces output
before the fault. -/
def engineFaultTrace : List RecvRes :=
  [RecvRes.msg (ClientMsg.submit (TryOutcome.accept "call-2")),
   RecvRes.msg (ClientMsg.dataMsg [1] true),
   RecvRes.fail "eof"]

/-- Incoming trace: an accepted submit then an end-of-stream data chunk;
paired with `envPartial` so execution fails after partial output. -/
def partialFailTrace : List RecvRes :=
  [RecvRes.msg (ClientMsg.submit (TryOutcome.accept "call-4")),
   RecvRes.msg (ClientMsg.dataMsg [1] true)]

/-- The `nullRunner` of lb_pool.go: the always-refuse sentinel `Runner`. -/
structure NullRunner where
deriving DecidableEq, Repr

/-- `nullRunner.TryExec`: refuses every dispatch with a nil error, for any
context and call types. -/
def NullRunner.tryExec {α β : Type} (_ : NullRunner) (_ : α) (_ : β) : Bool × Option GoErr :=
  (false, none)

/-- `nullRunner.Close`: does nothing. -/
def NullRunner.closeRunner (_ : NullRunner) : Unit := ()

/-- `nullRunner.Address`: the empty string. -/
def NullRunner.address (_ : NullRunner) : String := ""

/-! Helper lemmas about frame lists and the writer facade. -/

theorem rsFree_append_of (l : List RunnerMsg) (m : RunnerMsg)
    (hl : rsFree l = true) (hm : isRS m = false) : rsFree (l ++ [m]) = true := by
  simp only [rsFree, List.all_append, List.all_cons, List.all_nil, Bool.and_true,
    Bool.and_eq_true] at *
  exact ⟨hl, by simp [hm]⟩

theorem okShape_append_not_rs (l : List RunnerMsg) (m : RunnerMsg)
    (hl : okShape l = true) (hm : isRS m = false) : okShape (l ++ [m]) = true := by
  induction l with
  | nil => cases h : isDF m <;> simp [okShape, h, rsFree, hm]
  | cons a rest ih =>
      cases h : isDF a with
      | true =>
          simp only [okShape, h, List.cons_append, if_true] at hl ⊢
          exact rsFree_append_of rest m hl hm
      | false =>
          simp only [okShape, h, List.cons_append, if_false, Bool.false_eq_true] at hl ⊢
          exact ih hl

theorem okShape_append_of_dfFree (l : List RunnerMsg) (m : RunnerMsg)
    (hl : dfFree l = true) : okShape (l ++ [m]) = true := by
  induction l with
  | nil => cases h : isDF m <;> simp [okShape, h, rsFree]
  | cons a rest ih =>
      simp only [dfFree, List.all_cons, Bool.and_eq_true, Bool.not_eq_true'] at hl
      simp only [okShape, List.cons_append, hl.1, if_false, Bool.false_eq_true]
      exact ih hl.2

theorem rsCount_append_one (l : List RunnerMsg) (m : RunnerMsg) :
    rsCount (l ++ [m]) = rsCount l + (if isRS m then 1 else 0) := by
  simp [rsCount, List.countP_append, List.countP_cons]

theorem dfFree_append_of (l : List RunnerMsg) (m : RunnerMsg)
    (hl : dfFree l = true) (hm : isDF m = false) : dfFree (l ++ [m]) = true := by
  simp only [dfFree, List.all_append, List.all_cons, List.all_nil, Bool.and_true,
    Bool.and_eq_true] at *
  exact ⟨hl, by simp [hm]⟩

theorem commitHeaders_headerWritten (ok : Nat → Bool) (w : WriterFacade) (s : OutStream) :
    (commitHeaders ok w s).1.headerWritten = true := by
  by_cases h : w.headerWritten = true <;> simp [commitHeaders, h]

theorem facadeInv_init : FacadeInv initFacade emptyStream := by
  refine ⟨fun _ => ⟨rfl, rfl⟩, by simp [rsCount, emptyStream], rfl⟩

theorem facadeInv_attempts (w : WriterFacade) (s : OutStream) (n : Nat)
    (h : FacadeInv w s) : FacadeInv w { sent := s.sent, attempts := n } := h

theorem commitHeaders_inv (ok : Nat → Bool) (w : WriterFacade) (s : OutStream)
    (h : FacadeInv w s) : FacadeInv (commitHeaders ok w s).1 (commitHeaders ok w s).2 := by
  by_cases hw : w.headerWritten = true
  · simpa [commitHeaders, hw] using h
  · have hb : w.headerWritten = false := by simpa using hw
    obtain ⟨h1, h2, h3⟩ := h
    obtain ⟨hz, hdf⟩ := h1 hb
    by_cases hok : ok s.attempts = true
    · refine ⟨fun hfalse => by simp [commitHeaders, hw] at hfalse, ?_, ?_⟩
      · simp [commitHeaders, hw, sendMsg, hok, rsCount_append_one, hz, isRS]
      · simp only [commitHeaders, hw, sendMsg, hok, if_true, if_false, Bool.false_eq_true]
        exact okShape_append_of_dfFree _ _ hdf
    · refine ⟨fun hfalse => by simp [commitHeaders, hw] at hfalse, ?_, ?_⟩
      · simpa [commitHeaders, hw, sendMsg, hok] using h2
      · simpa [commitHeaders, hw, sendMsg, hok] using h3

theorem facadeInv_append_df (w : WriterFacade) (s : OutStream) (d : Bytes) (e : Bool) (n : Nat)
    (hw : w.headerWritten = true) (h : FacadeInv w s) :
    FacadeInv w { sent := s.sent ++ [RunnerMsg.dataFrame d e], attempts := n } := by
  obtain ⟨_, h2, h3⟩ := h
  refine ⟨?_, ?_, ?_⟩
  · intro hfalse; rw [hw] at hfalse; cases hfalse
  · simpa [rsCount_append_one, isRS] using h2
  · exact okShape_append_not_rs _ _ h3 rfl

theorem applyWOp_inv (ok : Nat → Bool) (p : WriterFacade × OutStream) (op : WOp)
    (h : FacadeInv p.1 p.2) : FacadeInv (applyWOp ok p op).1 (applyWOp ok p op).2 := by
  cases op with
  | setHeader k v => exact h
  | writeHeader st =>
      exact commitHeaders_inv ok { p.1 with outStatus := st } p.2 h
  | write d =>
      have hc := commitHeaders_inv ok p.1 p.2 h
      have hw := commitHeaders_headerWritten ok p.1 p.2
      by_cases hok : ok (commitHeaders ok p.1 p.2).2.attempts = true
      · simpa [applyWOp, wWrite, sendMsg, hok] using
          facadeInv_append_df _ _ d false _ hw hc
      · simpa [applyWOp, wWrite, sendMsg, hok] using
          facadeInv_attempts _ _ _ hc
  | close =>
      have hc := commitHeaders_inv ok p.1 p.2 h
      have hw := commitHeaders_headerWritten ok p.1 p.2
      by_cases hok : ok (commitHeaders ok p.1 p.2).2.attempts = true
      · simpa [applyWOp, wClose, sendMsg, hok] using
          facadeInv_append_df _ _ [] true _ hw hc
      · simpa [applyWOp, wClose, sendMsg, hok] using
          facadeInv_attempts _ _ _ hc

theorem runOps_inv (ok : Nat → Bool) (ops : List WOp) (p : WriterFacade × OutStream)
    (h : FacadeInv p.1 p.2) : FacadeInv (runOps ok p ops).1 (runOps ok p ops).2 := by
  induction ops generalizing p with
  | nil => exact h
  | cons op rest ih => exact ih _ (applyWOp_inv ok p op h)

theorem commitHeaders_idem_raw (ok : Nat → Bool) (w : WriterFacade) (s : OutStream) :
    commitHeaders ok (commitHeaders ok w s).1 (commitHeaders ok w s).2
      = commitHeaders ok w s := by
  by_cases h : w.headerWritten = true <;> simp [commitHeaders, h]

theorem getDF_commitHeaders (ok : Nat → Bool) (w : WriterFacade) (s : OutStream) :
    ((commitHeaders ok w s).2).sent.filterMap getDF = s.sent.filterMap getDF := by
  by_cases h : w.headerWritten = true
  · simp [commitHeaders, h]
  · by_cases hok : ok s.attempts = true <;>
      simp [commitHeaders, h, sendMsg, hok, List.filterMap_append, getDF]

theorem runOps_append_eq (ok : Nat → Bool) (p : WriterFacade × OutStream)
    (l₁ l₂ : List WOp) : runOps ok p (l₁ ++ l₂) = runOps ok (runOps ok p l₁) l₂ := by
  induction l₁ generalizing p with
  | nil => rfl
  | cons op rest ih => simp [runOps, ih]

theorem dfProj_writes (ds : List Bytes) (w : WriterFacade) (s : OutStream) :
    ((runOps allOk (w, s) (ds.map WOp.write)).2).sent.filterMap getDF
      = s.sent.filterMap getDF ++ ds.map (fun d => (d, false)) := by
  induction ds generalizing w s with
  | nil => simp [runOps]
  | cons d rest ih =>
      simp only [List.map_cons, runOps, applyWOp, wWrite, sendMsg, allOk, if_true]
      rw [ih]
      simp [List.filterMap_append, getDF, getDF_commitHeaders]

/-- C6: each `writerFacade.Write` sends one data frame with
`endOfStream = false` carrying exactly the bytes given, in call order, and
`writerFacade.Close` sends exactly one data frame with empty payload and
`endOfStream = true`; so over a session of body writes followed by the one
close, the data frames on the stream are exactly the written chunks in order
terminated by the single empty EOF frame, and the concatenation of the
written bytes equals the concatenation of the data-frame payloads. -/
theorem write_close_byte_roundtrip (ds : List Bytes) :
    (writesThenClose ds).2.sent.filterMap getDF
      = ds.map (fun d => (d, false)) ++ [([], true)] ∧
    (((writesThenClose ds).2.sent.filterMap getDF).map Prod.fst).flatten = ds.flatten := by
  have h1 : (writesThenClose ds).2.sent.filterMap getDF
      = ds.map (fun d => (d, false)) ++ [([], true)] := by
    unfold writesThenClose
    rw [runOps_append_eq]
    simp only [runOps, applyWOp, wClose, sendMsg, allOk, if_true, List.filterMap_append]
    rw [getDF_commitHeaders, dfProj_writes]
    simp [getDF, emptyStream]
  refine ⟨h1, ?_⟩
  rw [h1]
  simp only [List.map_append, List.map_map, List.flatten_append]
  have hid : (Prod.fst ∘ fun d : Bytes => (d, false)) = id := rfl
  rw [hid, List.map_id]
  simp

/-- C7: `commitHeaders` is idempotent — once it has run, a second call is a
no-op on both the facade and the stream — and across any sequence of facade
operations on one session, at most one result-headers frame is sent and it
precedes every body data frame on the stream. -/
theorem commit_idempotent_single_headers :
    (∀ (ok : Nat → Bool) (w : WriterFacade) (s : OutStream),
      commitHeaders ok (commitHeaders ok w s).1 (commitHeaders ok w s).2
        = commitHeaders ok w s) ∧
    (∀ (ok : Nat → Bool) (ops : List WOp),
      rsCount (runOps ok (initFacade, emptyStream) ops).2.sent ≤ 1 ∧
      okShape (runOps ok (initFacade, emptyStream) ops).2.sent = true) := by
  refine ⟨commitHeaders_idem_raw, fun ok ops => ?_⟩
  have h := runOps_inv ok ops (initFacade, emptyStream) facadeInv_init
  exact ⟨h.2.1, h.2.2⟩

/-! Helper lemmas about the engagement session model. -/

theorem startExec_ret (cfg : Config) : (startExec cfg).ret = cfg.ret := by
  unfold startExec; split <;> rfl

theorem handleTryCall_ret (tc : TryOutcome) (cfg : Config) :
    (handleTryCall tc cfg).1.ret = cfg.ret := by
  cases tc <;> rfl

theorem handleData_ret (p : Bytes) (eof : Bool) (cfg : Config) :
    (handleData p eof cfg).1.ret = cfg.ret := by
  have hs := startExec_ret cfg
  unfold handleData
  cases p with
  | nil =>
      by_cases he : eof = true
      · cases hi : (startExec cfg).input with
        | none => simp [he, hi, hs]
        | some pp => simp [he, hi, hs]
      · simp [he, hs]
  | cons b bs =>
      cases hi : (startExec cfg).input with
      | none => simp [hi, hs]
      | some pp =>
          by_cases hc : pp.closed = true
          · simp [hi, hc, hs]
          · by_cases he : eof = true <;> simp [hi, hc, he, hs]

theorem execStep_ret (env : Env) (cfg : Config) : (execStep env cfg).ret = cfg.ret := by
  unfold execStep
  repeat' split
  all_goals rfl

theorem loopStep_ret_or (env : Env) (cfg : Config) :
    (loopStep env cfg).ret = cfg.ret ∨ ∃ e : GoErr, (loopStep env cfg).ret = some (some e) := by
  by_cases hg : (cfg.crashed || cfg.ret.isSome) = true
  · left; simp [loopStep, hg]
  · cases hr : cfg.recvs with
    | nil => left; simp [loopStep, hg, hr]
    | cons r rest =>
        cases r with
        | fail e =>
            cases hc : cfg.c with
            | none => right; exact ⟨e, by simp [loopStep, hg, hr, hc]⟩
            | some call =>
                cases hi : cfg.input with
                | none =>
                    by_cases hs : call.reservedSlot = true
                    · left; simp [loopStep, hg, hr, hc, hi, hs]
                    · right; exact ⟨e, by simp [loopStep, hg, hr, hc, hi, hs]⟩
                | some pp =>
                    by_cases hs : call.reservedSlot = true
                    · right; exact ⟨e, by simp [loopStep, hg, hr, hc, hi, hs]⟩
                    · right; exact ⟨e, by simp [loopStep, hg, hr, hc, hi, hs]⟩
        | msg m =>
            cases m with
            | submit tc =>
                cases tc with
                | accept cid =>
                    by_cases hse : cfg.streamError = none
                    · rcases hsend : sendMsg env.sendOk cfg.stream
                          (RunnerMsg.acknowledged true cid) with ⟨s2, e2?⟩
                      cases e2? with
                      | some e2 =>
                          right
                          exact ⟨e2, by simp [loopStep, hg, hr, handleTryCall, hse, hsend]⟩
                      | none => left; simp [loopStep, hg, hr, handleTryCall, hse, hsend]
                    · left; simp [loopStep, hg, hr, handleTryCall, hse]
                | reject e =>
                    right
                    refine ⟨e, ?_⟩
                    by_cases hse : cfg.streamError = none
                    · rcases hsend : sendMsg env.sendOk cfg.stream
                          (RunnerMsg.acknowledged false e) with ⟨s2, e2?⟩
                      cases e2? <;> simp [loopStep, hg, hr, handleTryCall, hse, hsend]
                    · simp [loopStep, hg, hr, handleTryCall, hse]
            | dataMsg p eof =>
                rcases hd : handleData p eof { cfg with recvs := rest } with ⟨cfg2, e?⟩
                cases e? with
                | some e => right; exact ⟨e, by simp [loopStep, hg, hr, hd]⟩
                | none =>
                    left
                    have h3 := handleData_ret p eof { cfg with recvs := rest }
                    rw [hd] at h3
                    simpa [loopStep, hg, hr, hd] using h3
            | unrecognized =>
                right
                exact ⟨"Unrecognized or unhandled message in receive loop",
                  by simp [loopStep, hg, hr]⟩

theorem step_not_nil (env : Env) (cfg : Config) (ch : Bool) (h : cfg.ret ≠ some none) :
    (step env cfg ch).ret ≠ some none := by
  unfold step
  split
  · rcases loopStep_ret_or env cfg with h1 | ⟨e, h1⟩ <;> rw [h1]
    · exact h
    · simp
  · rw [execStep_ret]
    exact h

/-- C9: the engagement handler never returns nil — under every schedule and
every incoming trace, if the receive loop has returned then its return value
is a non-nil error (a receive failure, a submit-handling failure, a
data-handling failure, an acknowledge-send failure, or the unrecognized
message error); there is no normal-return path. -/
theorem engage_never_returns_nil (env : Env) (recvs : List RecvRes) (sched : List Bool) :
    (runSched env (initConfig recvs) sched).ret ≠ some none := by
  have main : ∀ (sched : List Bool) (cfg : Config), cfg.ret ≠ some none →
      (runSched env cfg sched).ret ≠ some none := by
    intro sched
    induction sched with
    | nil => intro cfg h; exact h
    | cons ch rest ih => intro cfg h; exact ih (step env cfg ch) (step_not_nil env cfg ch h)
  exact main sched (initConfig recvs) (by simp [initConfig])

/-- C8: when handling a `SubmitRequest` fails and no stream fault has been
recorded, the session sends `Acknowledge{accepted:false}` whose detail is
the error text and then returns that error, terminating the stream. -/
theorem submit_failure_ack (env : Env) (cfg : Config) (e : GoErr) (rest : List RecvRes)
    (hcr : cfg.crashed = false) (hret : cfg.ret = none) (hse : cfg.streamError = none)
    (hrecv : cfg.recvs = RecvRes.msg (ClientMsg.submit (TryOutcome.reject e)) :: rest)
    (hok : env.sendOk cfg.stream.attempts = true) :
    (loopStep env cfg).stream.sent = cfg.stream.sent ++ [RunnerMsg.acknowledged false e] ∧
    (loopStep env cfg).ret = some (some e) := by
  constructor <;> simp [loopStep, hcr, hret, hrecv, handleTryCall, hse, sendMsg, hok]

/-- C8 witness: the allocation-failure path evaluated on a concrete session
whose first message is a failing `SubmitRequest`. -/
theorem submit_failure_ack_witness :
    (loopStep envPlain cfgW8).stream.sent
      = cfgW8.stream.sent ++ [RunnerMsg.acknowledged false "bad json"] ∧
    (loopStep envPlain cfgW8).ret = some (some "bad json") :=
  submit_failure_ack envPlain cfgW8 "bad json" [] rfl rfl rfl rfl rfl

/-- C5 (amended): on a receive failure the session records the error as its
stream fault, closes the input pipe's write end whenever a call with a
reserved slot was allocated, returns the receive error, and the receive
loop itself performs no send on that step and no further steps at all; the
concurrently scheduled executor, however, is not send-free after the fault
(see the counterexample). -/
theorem recv_fault_cleanup (env : Env) (cfg : Config) (e : GoErr) (rest : List RecvRes)
    (hcr : cfg.crashed = false) (hret : cfg.ret = none)
    (hrecv : cfg.recvs = RecvRes.fail e :: rest)
    (hinp : ∀ call, cfg.c = some call → call.reservedSlot = true → cfg.input.isSome = true) :
    (loopStep env cfg).streamError = some e ∧
    (loopStep env cfg).ret = some (some e) ∧
    (loopStep env cfg).stream = cfg.stream ∧
    ((∃ call, cfg.c = some call ∧ call.reservedSlot = true) →
      (loopStep env cfg).input = some ⟨true⟩) ∧
    loopStep env (loopStep env cfg) = loopStep env cfg := by
  cases hc : cfg.c with
  | none =>
      have hres : loopStep env cfg
          = { cfg with recvs := rest, streamError := some e, ret := some (some e) } := by
        simp [loopStep, hcr, hret, hrecv, hc]
      rw [hres]
      refine ⟨rfl, rfl, rfl, ?_, ?_⟩
      · rintro ⟨call, hcall, h2⟩
        cases hcall
      · simp [loopStep]
  | some call =>
      by_cases hs : call.reservedSlot = true
      · cases hi : cfg.input with
        | none =>
            have h2 := hinp call hc hs
            rw [hi] at h2
            simp at h2
        | some pp =>
            have hres : loopStep env cfg
                = { cfg with recvs := rest, streamError := some e, input := some ⟨true⟩, ret := some (some e) } := by
              simp [loopStep, hcr, hret, hrecv, hc, hi, hs]
            rw [hres]
            exact ⟨rfl, rfl, rfl, fun _ => rfl, by simp [loopStep]⟩
      · have hres : loopStep env cfg
            = { cfg with recvs := rest, streamError := some e, ret := some (some e) } := by
          simp [loopStep, hcr, hret, hrecv, hc, hs]
        rw [hres]
        refine ⟨rfl, rfl, rfl, ?_, by simp [loopStep]⟩
        rintro ⟨call2, hcall2, hs2⟩
        cases hcall2
        exact absurd hs2 hs

/-- C5 witness: the receive-fault cleanup evaluated on a concrete session
with an allocated call and an open input pipe. -/
theorem recv_fault_cleanup_witness :
    (loopStep envPlain cfgW5).streamError = some "eof" ∧
    (loopStep envPlain cfgW5).ret = some (some "eof") ∧
    (loopStep envPlain cfgW5).stream = cfgW5.stream ∧
    ((∃ call, cfgW5.c = some call ∧ call.reservedSlot = true) →
      (loopStep envPlain cfgW5).input = some ⟨true⟩) ∧
    loopStep envPlain (loopStep envPlain cfgW5) = loopStep envPlain cfgW5 :=
  recv_fault_cleanup envPlain cfgW5 "eof" [] rfl rfl rfl (fun _ _ _ => rfl)

/-- C5 counterexample: the claim's final clause — no send is attempted once
the fault is recorded — is false for the session as a whole: after a receive
failure records the fault (send attempts still 3), one more executor step
runs `writerFacade.Close`, which sends unconditionally, raising the attempt
count to 4 and delivering an EOF data frame after the fault. -/
theorem recv_fault_not_send_free :
    (runSched envEngine (initConfig engineFaultTrace) [true, true, false, true]).streamError
      = some "eof" ∧
    (runSched envEngine (initConfig engineFaultTrace) [true, true, false, true]).stream.attempts
      = 3 ∧
    (runSched envEngine (initConfig engineFaultTrace)
        [true, true, false, true, false]).stream.attempts = 4 ∧
    (runSched envEngine (initConfig engineFaultTrace)
        [true, true, false, true, false]).stream.sent
      = [RunnerMsg.acknowledged true "call-2", RunnerMsg.resultStart 200 [],
         RunnerMsg.dataFrame [104, 105] false, RunnerMsg.dataFrame [] true] := by
  exact ⟨rfl, rfl, rfl, rfl⟩

/-- C3 (amended): when execution fails, the executor sends exactly one
`Finished{success:false}` frame carrying the execution error text and does
not close the Response Adapter first (the facade state is untouched and no
EOF frame is emitted on this path); the rule that a close failure is what
gets reported in `Finished` applies only on the success path, after
`writerFacade.Close` fails. -/
theorem exec_failure_finished_only (env : Env) :
    (∀ (cfg : Config) (e : GoErr), cfg.crashed = false →
        cfg.phase = ExecPhase.postSubmit (some e) → cfg.streamError = none →
        env.sendOk cfg.stream.attempts = true →
        (execStep env cfg).stream.sent = cfg.stream.sent ++ [RunnerMsg.finished false e] ∧
        (execStep env cfg).w = cfg.w ∧
        (execStep env cfg).phase = ExecPhase.finishedExec) ∧
    (∀ (cfg : Config) (ce : GoErr), cfg.crashed = false →
        cfg.phase = ExecPhase.postClose (some ce) → cfg.streamError = none →
        env.sendOk cfg.stream.attempts = true →
        (execStep env cfg).stream.sent = cfg.stream.sent ++ [RunnerMsg.finished false ce]) := by
  constructor
  · intro cfg e hcr hph hse hok
    refine ⟨?_, ?_, ?_⟩ <;> simp [execStep, hcr, hph, hse, sendMsg, hok]
  · intro cfg ce hcr hph hse hok
    simp [execStep, hcr, hph, hse, sendMsg, hok]

/-- C3 witness: the failure path evaluated at concrete executor states, both
after a failed `Submit` and after a failed close on the success path. -/
theorem exec_failure_finished_only_witness :
    ((execStep envPlain cfgW3a).stream.sent
        = cfgW3a.stream.sent ++ [RunnerMsg.finished false "boom"] ∧
      (execStep envPlain cfgW3a).w = cfgW3a.w ∧
      (execStep envPlain cfgW3a).phase = ExecPhase.finishedExec) ∧
    (execStep envPlain cfgW3b).stream.sent
      = cfgW3b.stream.sent ++ [RunnerMsg.finished false "close fail"] :=
  ⟨(exec_failure_finished_only envPlain).1 cfgW3a "boom" rfl rfl rfl rfl,
    (exec_failure_finished_only envPlain).2 cfgW3b "close fail" rfl rfl rfl rfl⟩

/-- C3 counterexample: on a session whose execution fails after partial
output (headers and two body bytes already sent), the executor sends
`Finished{success:false, detail:"exec boom"}` directly after the partial
output, with no `endOfStream=true` data frame anywhere on the stream —
refuting the claim that the adapter is closed (EOF frame sent) before the
failure `Finished`. -/
theorem exec_failure_no_eof_frame :
    (runSched envPartial (initConfig partialFailTrace)
        [true, true, false, false]).stream.sent
      = [RunnerMsg.acknowledged true "call-4", RunnerMsg.resultStart 200 [],
         RunnerMsg.dataFrame [10, 11] false, RunnerMsg.finished false "exec boom"] ∧
    ((runSched envPartial (initConfig partialFailTrace)
        [true, true, false, false]).stream.sent.all (fun m => !(isEofDF m))) = true := by
  exact ⟨rfl, rfl⟩

/-- C1: evaluation at the failing interleaving — after an accepted submit
and the executor launch, a receive failure records the stream fault with
only one send attempted so far; two further executor steps then attempt and
deliver two more sends (the result-headers frame and the EOF data frame of
`writerFacade.Close`, which consults no fault flag), so sends are attempted
after the fault flag is set and outside any critical section. -/
theorem engage_send_after_fault :
    (runSched envPlain (initConfig recvFaultTrace) [true, true, true]).streamError
      = some "rpc error: connection reset" ∧
    (runSched envPlain (initConfig recvFaultTrace) [true, true, true]).stream.attempts = 1 ∧
    (runSched envPlain (initConfig recvFaultTrace)
        [true, true, true, false, false]).stream.attempts = 3 ∧
    (runSched envPlain (initConfig recvFaultTrace)
        [true, true, true, false, false]).stream.sent
      = [RunnerMsg.acknowledged true "call-1", RunnerMsg.resultStart 200 [],
         RunnerMsg.dataFrame [] true] := by
  exact ⟨rfl, rfl, rfl, rfl⟩

/-- C2: evaluation at the failing input — two valid `SubmitRequest`s on one
session are both processed, two `Acknowledge{accepted:true}` frames are
sent, and the receive loop keeps running rather than faulting the stream. -/
theorem double_submit_double_ack :
    (runSched envPlain (initConfig doubleSubmitTrace) [true, true]).stream.sent
      = [RunnerMsg.acknowledged true "id-a", RunnerMsg.acknowledged true "id-b"] ∧
    (runSched envPlain (initConfig doubleSubmitTrace) [true, true]).ret = none := by
  exact ⟨rfl, rfl⟩

/-- C4: evaluation at the failing input — a `DataChunk` with a non-empty
payload arriving before any `SubmitRequest` drives `handleData` into a nil
dereference of the absent input pipe (a Go panic, modelled by `crashed`),
rather than a protocol-fault error return. -/
theorem data_before_submit_crashes :
    (runSched envPlain (initConfig earlyDataTrace) [true]).crashed = true ∧
    (runSched envPlain (initConfig earlyDataTrace) [true]).ret = none := by
  exact ⟨rfl, rfl⟩

/-- C10: the always-refuse sentinel worker refuses every dispatch and never
errors — `TryExec` returns `(false, nil)` for every context and call, `Close`
does nothing, and `Address` returns the empty string. -/
theorem null_runner_refuses_all :
    (∀ (α β : Type) (ctx : α) (c : β) (r : NullRunner), r.tryExec ctx c = (false, none)) ∧
    (∀ r : NullRunner, r.closeRunner = ()) ∧
    (∀ r : NullRunner, r.address = "") :=
  ⟨fun _ _ _ _ _ => rfl, fun _ => rfl, fun _ => rfl⟩

end Fn
